import Mathlib

/-!
Verification of the tk-video-analyzer backend (src/backend/analyzer.py and
src/backend/main.py) against its natural-language specification.

The Python code is shallowly embedded: each external collaborator (yt-dlp
download, ffmpeg audio extraction, whisper transcription, scene detection,
Gemini report generation) is modelled by its outcome (`Except` for fallible
calls, a plain list for the detected scene list, `Nat → Option Nat` for the
frame accessor `video.seek` / `video.read`, where `none` models an
undecodable/out-of-range frame).  A pipeline run is a pure function from those
outcomes to a `RunResult`: the ordered list of `status.txt` writes, the
directories and files created inside the job directory (paths relative to the
job directory), the persisted report text, the collaborator calls made, and
whether the Python coroutine returned normally or raised.  Python integer
arithmetic on frame indices is modelled exactly, with `ℚ` for the float
division `(end - start) / 2` (frame counts are far below any float-precision
loss, so exact rationals are the faithful model).
-/

deriving instance DecidableEq for Except

namespace TKVA

/-- Python `f"\x7bn:03d\x7d"`: decimal digits of `n`, left-padded with zeros to
width at least 3 (analyzer.py line 191). -/
def pad3 (n : Nat) : String :=
  let s := toString n
  if s.length < 3 then String.mk (List.replicate (3 - s.length) '0') ++ s else s

/-- File name of the saved keyframe for loop index `n` (1-based), from
`f"keyframe_\x7bi+1:03d\x7d.jpg"` in analyzer.py line 191. -/
def keyframe_name (n : Nat) : String :=
  "keyframe_" ++ pad3 n ++ ".jpg"

/-- Representative frame of a scene, from analyzer.py line 185:
`int(start_frame.get_frames() + (end_frame.get_frames() - start_frame.get_frames()) / 2)`.
Python `/` is exact on these magnitudes, so it is modelled by rational
division; `int(...)` truncates, which on the nonnegative values arising here
is the floor. -/
def middle_frame_num (s e : Nat) : Nat :=
  (⌊(s : ℚ) + ((e : ℚ) - (s : ℚ)) / 2⌋).toNat

/-- Body of the `for i, scene in enumerate(scene_list)` loop of
`_extract_keyframes` (analyzer.py lines 183-193), with `i` the current loop
index.  For each scene the middle frame is computed and read; if the decoder
yields a frame it is written as `keyframe_name (i+1)` and appended to
`saved_keyframes`, otherwise the scene is skipped. -/
def extract_keyframes_loop (read_frame : Nat → Option Nat) :
    Nat → List (Nat × Nat) → List (String × Nat)
  | _, [] => []
  | i, scene :: rest =>
    match read_frame (middle_frame_num scene.1 scene.2) with
    | some frame =>
        (keyframe_name (i + 1), frame) :: extract_keyframes_loop read_frame (i + 1) rest
    | none => extract_keyframes_loop read_frame (i + 1) rest

/-- `_extract_keyframes` (analyzer.py lines 171-196): the emitted keyframes,
as (file name, decoded frame) pairs in emission order, for a given frame
accessor and detected scene list. -/
def extract_keyframes (read_frame : Nat → Option Nat)
    (scene_list : List (Nat × Nat)) : List (String × Nat) :=
  extract_keyframes_loop read_frame 0 scene_list

/-- `_generate_report` (analyzer.py lines 198-235) at the level of the LLM
collaborator outcome: on success the response text is the report; on any
exception the fallback report embeds the error and the raw transcript
(analyzer.py line 235). -/
def generate_report (generate_content : Except String String)
    (transcript : String) : String :=
  match generate_content with
  | .ok text => text
  | .error e =>
      "# LLM Analysis Failed\n\nError: " ++ e ++ "\n\n## Transcript\n" ++ transcript

/-- Named pipeline stages, in pipeline order, as written to `status.txt`. -/
inductive Stage
  | downloading
  | extracting_audio
  | transcribing
  | extracting_frames
  | generating_report
  | complete
deriving DecidableEq, Repr

/-- Position of a stage in pipeline order. -/
def Stage.idx : Stage → Nat
  | .downloading => 0
  | .extracting_audio => 1
  | .transcribing => 2
  | .extracting_frames => 3
  | .generating_report => 4
  | .complete => 5

/-- Short name of a stage as written to `status.txt`. -/
def Stage.shortName : Stage → String
  | .downloading => "downloading"
  | .extracting_audio => "extracting_audio"
  | .transcribing => "transcribing"
  | .extracting_frames => "extracting_frames"
  | .generating_report => "generating_report"
  | .complete => "complete"

/-- One write to `status.txt`: either a named stage, or a failure record.
`capitalE` distinguishes the URL-validation write `"Error: ..."`
(analyzer.py line 96) from the exception-handler writes `"error: ..."`
(analyzer.py lines 78 and 114). -/
inductive StatusWrite
  | stage (s : Stage)
  | failure (capitalE : Bool) (msg : String)
deriving DecidableEq, Repr

/-- The exact string a `StatusWrite` puts into `status.txt`. -/
def status_text : StatusWrite → String
  | .stage s => s.shortName
  | .failure true m => "Error: " ++ m
  | .failure false m => "error: " ++ m

/-- Outcomes of the external collaborators for one job, the only
inputs that determine a pipeline run in the embedding. -/
structure Collaborators where
  download : Except String String
  extract_audio : Except String String
  transcribe : Except String String
  scene_list : List (Nat × Nat)
  read_frame : Nat → Option Nat
  generate_content : Except String String

/-- Observable result of one pipeline coroutine: ordered `status.txt` writes,
directories and files created inside the job directory, the persisted report
text, the collaborator calls made (in order), and whether the coroutine
returned normally (`.ok`) or raised (`.error` with the exception message). -/
structure RunResult where
  writes : List StatusWrite
  dirs : List String
  files : List String
  report : Option String
  actions : List String
  outcome : Except String Unit
deriving DecidableEq, Repr

/-- Status text written by the exception handler of
`_run_analysis_on_local_file` (analyzer.py lines 75-78):
`f"error: Error during analysis: \x7be\x7d"`. -/
def analysis_error (e : String) : StatusWrite :=
  .failure false ("Error during analysis: " ++ e)

/-- `_run_analysis_on_local_file` (analyzer.py lines 37-81).  Steps 2-6 in
order; the first collaborator exception triggers the handler, which writes the
failure status and re-raises.  On the success path the transcript cache
`audio.txt` survives (the temporary `audio.mp3` is deleted in the `finally` of
`_transcribe_audio`), the `keyframes` directory is created before extraction,
keyframe files are written by `_extract_keyframes`, and `report.md` is written
before the final `complete` status. -/
def run_analysis_on_local_file (c : Collaborators) (video_path : String) : RunResult :=
  match c.extract_audio with
  | .error e =>
      { writes := [.stage .extracting_audio, analysis_error e]
        dirs := []
        files := []
        report := none
        actions := ["extract_audio"]
        outcome := .error e }
  | .ok _ =>
      match c.transcribe with
      | .error e =>
          { writes := [.stage .extracting_audio, .stage .transcribing, analysis_error e]
            dirs := []
            files := []
            report := none
            actions := ["extract_audio", "transcribe"]
            outcome := .error e }
      | .ok transcript =>
          let keyframes := extract_keyframes c.read_frame c.scene_list
          let report := generate_report c.generate_content transcript
          { writes := [.stage .extracting_audio, .stage .transcribing,
                       .stage .extracting_frames, .stage .generating_report,
                       .stage .complete]
            dirs := ["keyframes"]
            files := "audio.txt" :: keyframes.map (fun kf => "keyframes/" ++ kf.1)
                       ++ ["report.md"]
            report := some report
            actions := ["extract_audio", "transcribe", "detect_scenes", "generate_report"]
            outcome := .ok () }

/-- Python `small.isPrefixOf big` on character lists, written out so the
embedding is self-contained. -/
def isPrefixOfChars : List Char → List Char → Bool
  | [], _ => true
  | _ :: _, [] => false
  | a :: as, b :: bs => a = b && isPrefixOfChars as bs

/-- Contiguous-substring test on character lists: `containsSub s p` is true
iff `p` occurs inside `s`. -/
def containsSub : List Char → List Char → Bool
  | [], p => isPrefixOfChars p []
  | b :: rest, p => isPrefixOfChars p (b :: rest) || containsSub rest p

/-- Python string membership `pat in s` (substring containment), used by the
URL validation gate at analyzer.py line 92. -/
def strContains (s pat : String) : Bool :=
  containsSub s.data pat.data

/-- Validation failure message of analyzer.py line 93. -/
def unsupported_url_message : String :=
  "Unsupported URL. Please provide a direct link to a TikTok or Douyin video, not a user profile or search page."

/-- `run_analysis_pipeline` (analyzer.py lines 83-115).  The validation gate
(line 92) rejects URLs containing neither `"/video/"` nor `"/note/"`, writing
`"Error: ..."` to `status.txt` and returning normally.  Otherwise the
`downloading` status is written, the downloader runs, an empty (falsy) path
raises `ValueError("Failed to download video.")`, and the local-file analysis
is run on the downloaded file.  The enclosing `except` (lines 110-115) catches
every exception from the download and analysis steps, writes
`f"error: An error occurred: \x7be\x7d"`, and does not re-raise, so this
coroutine always returns normally. -/
def run_analysis_pipeline (c : Collaborators) (video_url : String) : RunResult :=
  if !(strContains video_url "/video/" || strContains video_url "/note/") then
    { writes := [.failure true unsupported_url_message]
      dirs := []
      files := []
      report := none
      actions := []
      outcome := .ok () }
  else
    match c.download with
    | .error e =>
        { writes := [.stage .downloading, .failure false ("An error occurred: " ++ e)]
          dirs := []
          files := []
          report := none
          actions := ["download"]
          outcome := .ok () }
    | .ok video_path =>
        if video_path = "" then
          { writes := [.stage .downloading,
                       .failure false "An error occurred: Failed to download video."]
            dirs := []
            files := []
            report := none
            actions := ["download"]
            outcome := .ok () }
        else
          let r := run_analysis_on_local_file c video_path
          match r.outcome with
          | .ok _ =>
              { r with
                writes := .stage .downloading :: r.writes
                actions := "download" :: r.actions
                outcome := .ok () }
          | .error e =>
              { r with
                writes := (.stage .downloading :: r.writes)
                            ++ [.failure false ("An error occurred: " ++ e)]
                actions := "download" :: r.actions
                outcome := .ok () }

/-- `run_analysis_and_notify` (main.py lines 58-65): run the URL pipeline,
then publish `"complete"` to the job's subscriber queue if it returned
normally, `"error"` if it raised.  The second component is the ordered list of
events a live subscriber receives. -/
def run_analysis_and_notify (c : Collaborators) (url : String) :
    RunResult × List String :=
  let r := run_analysis_pipeline c url
  match r.outcome with
  | .ok _ => (r, ["complete"])
  | .error _ => (r, ["error"])

/-- `run_local_file_analysis_and_notify` (main.py lines 67-74): same wrapper
around the local-file analysis, whose exceptions do propagate. -/
def run_local_file_analysis_and_notify (c : Collaborators) (video_path : String) :
    RunResult × List String :=
  let r := run_analysis_on_local_file c video_path
  match r.outcome with
  | .ok _ => (r, ["complete"])
  | .error _ => (r, ["error"])

/-- Python `os.makedirs(d, exist_ok=ok)` on a directory set: with
`exist_ok=True` an existing directory is accepted silently; with
`exist_ok=False` it raises `FileExistsError`. -/
def makedirs (dirs : List String) (d : String) (exist_ok : Bool) :
    Except String (List String) :=
  if d ∈ dirs then
    if exist_ok then .ok dirs else .error "FileExistsError"
  else .ok (dirs ++ [d])

/-- Job-directory creation done by the `/analyze` endpoint
(main.py line 83): `os.makedirs(job_dir, exist_ok=True)` and nothing else —
in particular no status file is written at creation time.  Returns the new
directory set and the list of (file, content) writes performed. -/
def analyze_video_url_create (dirs : List String) (job_id : String) :
    Except String (List String × List (String × String)) :=
  (makedirs dirs job_id true).map (fun dirs2 => (dirs2, []))

/-- Job-directory creation done by the `/analyze-upload` endpoint
(main.py line 92), identical to the URL endpoint as far as the directory and
status record are concerned (the uploaded bytes are then saved as
`video.mp4`). -/
def analyze_video_upload_create (dirs : List String) (job_id : String) :
    Except String (List String × List (String × String)) :=
  (makedirs dirs job_id true).map (fun dirs2 => (dirs2, [("video.mp4", "upload")]))

/-- Pipeline-order constraint between two status writes: a later named stage
never has a smaller pipeline index than an earlier one, and no named stage is
ever written after a failure write. -/
def writeLE : StatusWrite → StatusWrite → Prop
  | .stage a, .stage b => a.idx ≤ b.idx
  | .failure _ _, .stage _ => False
  | _, _ => True

/-- Collaborator outcomes in which every stage succeeds. -/
def cfg0 : Collaborators where
  download := .ok "video.mp4"
  extract_audio := .ok "audio.mp3"
  transcribe := .ok "hello transcript"
  scene_list := [(0, 10)]
  read_frame := fun _ => some 0
  generate_content := .ok "llm report"

/-- Collaborator outcomes whose report generator fails. -/
def cfgGenFail : Collaborators :=
  { cfg0 with generate_content := .error "llm unavailable" }

/-- Collaborator outcomes whose transcriber fails. -/
def cfgTransFail : Collaborators :=
  { cfg0 with transcribe := .error "whisper failed" }

/-- Frame accessor that decodes only frame 3 (to frame value 7). -/
def dec0 : Nat → Option Nat :=
  fun n => if n = 3 then some 7 else none

/-- The exact-rational model of the Python midpoint computation agrees with
the integer formula `start + (end - start) / 2` on every half-open scene
interval. -/
theorem middle_frame_num_spec (s e : Nat) (h : s ≤ e) :
    middle_frame_num s e = s + (e - s) / 2 := by
  unfold middle_frame_num
  have hd : (e : ℚ) - (s : ℚ) = ((e - s : ℕ) : ℚ) := by
    rw [Nat.cast_sub h]
  have h1 : ((s : ℚ)) = (((s : ℕ) : ℤ) : ℚ) := by push_cast; rfl
  rw [hd, h1, Int.floor_int_add]
  rw [show ((2 : ℚ)) = (((2 : ℕ)) : ℚ) by norm_num]
  rw [Rat.floor_natCast_div_natCast]
  omega

/-- Correctness of the character-list prefix test. -/
theorem isPrefixOfChars_iff (p l : List Char) :
    isPrefixOfChars p l = true ↔ p <+: l := by
  induction p generalizing l with
  | nil => simp [isPrefixOfChars]
  | cons a as ih =>
    cases l with
    | nil => simp [isPrefixOfChars]
    | cons b bs => simp [isPrefixOfChars, ih, List.cons_prefix_cons]

/-- Correctness of the substring test: `containsSub s p` holds exactly when
`p` is a contiguous infix of `s`. -/
theorem containsSub_iff (s p : List Char) :
    containsSub s p = true ↔ p <:+: s := by
  induction s with
  | nil => simp [containsSub, isPrefixOfChars_iff, List.infix_nil]
  | cons b bs ih =>
    simp [containsSub, isPrefixOfChars_iff, ih, List.infix_cons_iff]

/-- String-level version of `containsSub_iff`. -/
theorem strContains_iff (s pat : String) :
    strContains s pat = true ↔ pat.data <:+: s.data :=
  containsSub_iff s.data pat.data

/-- The keyframe loop emits exactly one keyframe per scene whose middle frame
decodes, regardless of the starting loop index. -/
theorem extract_keyframes_loop_length (rf : Nat → Option Nat) (i : Nat)
    (l : List (Nat × Nat)) :
    (extract_keyframes_loop rf i l).length
      = (l.filter (fun sc => (rf (middle_frame_num sc.1 sc.2)).isSome)).length := by
  induction l generalizing i with
  | nil => simp [extract_keyframes_loop]
  | cons sc rest ih =>
    cases h : rf (middle_frame_num sc.1 sc.2) <;>
      simp [extract_keyframes_loop, h, ih, List.filter_cons]

/-- Every keyframe emitted by the loop comes from a scene of the list, holds
the decoded middle frame of that scene, and is named after that scene's
position (offset by the starting loop index). -/
theorem extract_keyframes_loop_mem (rf : Nat → Option Nat) (i : Nat)
    (l : List (Nat × Nat)) (p : String × Nat)
    (hp : p ∈ extract_keyframes_loop rf i l) :
    ∃ j sc, l[j]? = some sc
      ∧ rf (middle_frame_num sc.1 sc.2) = some p.2
      ∧ p.1 = keyframe_name (i + j + 1) := by
  induction l generalizing i with
  | nil => simp [extract_keyframes_loop] at hp
  | cons sc rest ih =>
    cases h : rf (middle_frame_num sc.1 sc.2) with
    | none =>
      simp only [extract_keyframes_loop, h] at hp
      obtain ⟨j, sc', h1, h2, h3⟩ := ih (i + 1) hp
      refine ⟨j + 1, sc', by simpa using h1, h2, ?_⟩
      rw [h3]
      congr 1
      omega
    | some f =>
      simp only [extract_keyframes_loop, h, List.mem_cons] at hp
      rcases hp with hp | hp
      · refine ⟨0, sc, by simp, ?_, ?_⟩
        · rw [hp, h]
        · rw [hp]
      · obtain ⟨j, sc', h1, h2, h3⟩ := ih (i + 1) hp
        refine ⟨j + 1, sc', by simpa using h1, h2, ?_⟩
        rw [h3]
        congr 1
        omega

/-- C5: for every Scene [start, end) the keyframe selector computes the
representative frame index as exactly `start + floor((end - start) / 2)`, the
integer midpoint rounded down. -/
theorem representative_frame_is_integer_midpoint (s e : Nat) (h : s ≤ e) :
    middle_frame_num s e = s + (e - s) / 2 :=
  middle_frame_num_spec s e h

/-- Witness for C5 at the concrete scene [3, 8). -/
theorem representative_frame_is_integer_midpoint_witness :
    3 ≤ 8 ∧ middle_frame_num 3 8 = 3 + (8 - 3) / 2 :=
  ⟨by decide, representative_frame_is_integer_midpoint 3 8 (by decide)⟩

/-- C6 counterexample: with scenes [0,0) and [2,4) where only frame 3
decodes, the single emitted keyframe is named `keyframe_002.jpg` (after its
scene's index), not `keyframe_001.jpg` as the 1-based position among emitted
keyframes would demand, so skipped scenes do leave gaps in the numbering. -/
theorem keyframe_numbering_gaps_cex :
    (extract_keyframes dec0 [(0, 0), (2, 4)]).map Prod.fst = ["keyframe_002.jpg"]
    ∧ keyframe_name 1 = "keyframe_001.jpg"
    ∧ "keyframe_002.jpg" ≠ "keyframe_001.jpg" := by
  have h00 : middle_frame_num 0 0 = 0 := by
    simpa using middle_frame_num_spec 0 0 (Nat.le_refl 0)
  have h24 : middle_frame_num 2 4 = 3 := by
    have h := middle_frame_num_spec 2 4 (by decide)
    simpa using h
  have e1 : extract_keyframes dec0 [(0, 0), (2, 4)] = [(keyframe_name 2, 7)] := by
    simp [extract_keyframes, extract_keyframes_loop, dec0, h00, h24]
  refine ⟨by rw [e1]; rfl, rfl, by decide⟩

/-- C6 (amended): scenes whose middle frame does not decode are skipped
without aborting and do not increment the emitted count, but each emitted
keyframe file is named by the 1-based index of its scene in the input scene
list (not by its position among the emitted keyframes), so skipped scenes
leave gaps in the numbering. -/
theorem keyframes_skip_and_scene_indexed_naming (rf : Nat → Option Nat)
    (scene_list : List (Nat × Nat)) :
    (extract_keyframes rf scene_list).length
      = (scene_list.filter (fun sc => (rf (middle_frame_num sc.1 sc.2)).isSome)).length
    ∧ ∀ p ∈ extract_keyframes rf scene_list,
        ∃ j sc, scene_list[j]? = some sc
          ∧ rf (middle_frame_num sc.1 sc.2) = some p.2
          ∧ p.1 = keyframe_name (j + 1) := by
  refine ⟨extract_keyframes_loop_length rf 0 scene_list, ?_⟩
  intro p hp
  obtain ⟨j, sc, h1, h2, h3⟩ := extract_keyframes_loop_mem rf 0 scene_list p hp
  exact ⟨j, sc, h1, h2, by simpa using h3⟩

/-- Witness for the amended C6: instantiating the theorem on the concrete
counterexample input recovers the scene-indexed name of the emitted
keyframe. -/
theorem keyframes_skip_and_scene_indexed_naming_witness :
    ∃ j sc, ([(0, 0), (2, 4)] : List (Nat × Nat))[j]? = some sc
      ∧ dec0 (middle_frame_num sc.1 sc.2) = some 7
      ∧ "keyframe_002.jpg" = keyframe_name (j + 1) := by
  have h00 : middle_frame_num 0 0 = 0 := by
    simpa using middle_frame_num_spec 0 0 (Nat.le_refl 0)
  have h24 : middle_frame_num 2 4 = 3 := by
    have h := middle_frame_num_spec 2 4 (by decide)
    simpa using h
  have hp : ("keyframe_002.jpg", 7) ∈ extract_keyframes dec0 [(0, 0), (2, 4)] := by
    have e1 : extract_keyframes dec0 [(0, 0), (2, 4)] = [(keyframe_name 2, 7)] := by
      simp [extract_keyframes, extract_keyframes_loop, dec0, h00, h24]
    rw [e1]
    exact List.mem_singleton.mpr rfl
  exact (keyframes_skip_and_scene_indexed_naming dec0 [(0, 0), (2, 4)]).2
    ("keyframe_002.jpg", 7) hp

/-- C7: keyframe extraction never raises on edge cases: zero scenes yield the
empty output, and for a degenerate scene [s, s) the midpoint is `s` and the
selector emits the frame at `s` when the accessor decodes it and skips the
scene when it does not (the accessor returning `none` models an out-of-range
seek). -/
theorem keyframe_extraction_edge_cases_safe (read_frame : Nat → Option Nat)
    (s : Nat) :
    extract_keyframes read_frame [] = []
    ∧ middle_frame_num s s = s
    ∧ extract_keyframes read_frame [(s, s)]
        = (read_frame s).toList.map fun f => (keyframe_name 1, f) := by
  have hss : middle_frame_num s s = s := by
    simpa using middle_frame_num_spec s s (Nat.le_refl s)
  refine ⟨rfl, hss, ?_⟩
  cases h : read_frame s <;>
    simp [extract_keyframes, extract_keyframes_loop, hss, h]

/-- The URL gate condition of analyzer.py line 92 holds exactly when one of
the two content-path segments occurs in the URL. -/
theorem gate_iff (url : String) :
    (strContains url "/video/" || strContains url "/note/") = true
      ↔ ("/video/".data <:+: url.data ∨ "/note/".data <:+: url.data) := by
  rw [Bool.or_eq_true, strContains_iff, strContains_iff]

/-- The URL pipeline coroutine always returns normally: the validation gate
returns after writing the failure, and the enclosing `except` of analyzer.py
lines 110-115 swallows every exception from the download and analysis
steps. -/
theorem pipeline_returns_normally (c : Collaborators) (url : String) :
    (run_analysis_pipeline c url).outcome = .ok () := by
  by_cases hg : (strContains url "/video/" || strContains url "/note/") = true
  · cases hd : c.download with
    | error e => simp [run_analysis_pipeline, hg, hd]
    | ok p =>
      by_cases hp : p = ""
      · simp [run_analysis_pipeline, hg, hd, hp]
      · cases hr : (run_analysis_on_local_file c p).outcome <;>
          simp [run_analysis_pipeline, hg, hd, hp, hr]
  · have hb : (strContains url "/video/" || strContains url "/note/") = false := by
      simpa using hg
    simp [run_analysis_pipeline, hb]

/-- C1 counterexample: a bare profile URL (no content-path segment) is
rejected by the gate, yet the subscribed observer receives the terminal
`complete` event, not `error`. -/
theorem rejected_url_event_is_complete_cex :
    (run_analysis_and_notify cfg0 "https://www.tiktok.com/@someuser").2 = ["complete"]
    ∧ (run_analysis_and_notify cfg0 "https://www.tiktok.com/@someuser").2 ≠ ["error"] := by
  refine ⟨rfl, by decide⟩

/-- C1 (amended): for every job created from a URL the validation gate
rejects, the StatusRecord receives exactly the one validation-failure write
and no download (nor any other collaborator call) is attempted; but the
rejection is not reported through the mid-pipeline failure channel of the
event stream: the pipeline returns normally, so the notify wrapper publishes
the terminal `complete` event to the subscriber, not `error`. -/
theorem rejected_url_failed_without_download (c : Collaborators) (url : String)
    (h : (strContains url "/video/" || strContains url "/note/") = false) :
    (run_analysis_and_notify c url).1.writes = [.failure true unsupported_url_message]
    ∧ (run_analysis_and_notify c url).1.actions = []
    ∧ (run_analysis_and_notify c url).2 = ["complete"] := by
  refine ⟨?_, ?_, ?_⟩ <;>
    simp [run_analysis_and_notify, run_analysis_pipeline, h]

/-- Witness for the amended C1 at a concrete rejected profile URL. -/
theorem rejected_url_failed_without_download_witness :
    (strContains "https://www.tiktok.com/@someuser" "/video/"
        || strContains "https://www.tiktok.com/@someuser" "/note/") = false
    ∧ (run_analysis_and_notify cfg0 "https://www.tiktok.com/@someuser").2
        = ["complete"] :=
  ⟨by decide,
    (rejected_url_failed_without_download cfg0 "https://www.tiktok.com/@someuser"
      (by decide)).2.2⟩

/-- C2 counterexample: on a fully successful local-file job the StatusRecord
receives the `extracting_audio` transition, but no `"extracting_audio"` event
is ever published - the subscriber sees only the single terminal
`complete`. -/
theorem no_per_stage_events_cex :
    StatusWrite.stage .extracting_audio
        ∈ (run_local_file_analysis_and_notify cfg0 "video.mp4").1.writes
    ∧ "extracting_audio" ∉ (run_local_file_analysis_and_notify cfg0 "video.mp4").2
    ∧ (run_local_file_analysis_and_notify cfg0 "video.mp4").2 = ["complete"] := by
  refine ⟨by decide, by decide, rfl⟩

/-- C2 (amended): stage transitions write their short names to the
StatusRecord but publish no events; exactly one terminal event per job is
published by the notify wrapper after the analysis call finishes - always
`complete` for a URL job (whose pipeline swallows its exceptions), and for a
local-file job `complete` when the analysis returned normally and `error`
when it raised - and the terminal status write precedes that publish (the
last StatusRecord write is `complete`, respectively a failure record). -/
theorem single_terminal_event_after_final_write (c : Collaborators)
    (url video_path : String) :
    (run_analysis_and_notify c url).2 = ["complete"]
    ∧ ((run_analysis_on_local_file c video_path).outcome.isOk = true →
        (run_local_file_analysis_and_notify c video_path).2 = ["complete"]
        ∧ (run_local_file_analysis_and_notify c video_path).1.writes.getLast?
            = some (.stage .complete))
    ∧ ((run_analysis_on_local_file c video_path).outcome.isOk = false →
        (run_local_file_analysis_and_notify c video_path).2 = ["error"]
        ∧ ∃ m, (run_local_file_analysis_and_notify c video_path).1.writes.getLast?
            = some (analysis_error m)) := by
  refine ⟨?_, ?_, ?_⟩
  · have h := pipeline_returns_normally c url
    simp [run_analysis_and_notify, h]
  · intro hok
    cases ha : c.extract_audio with
    | error e => simp [run_analysis_on_local_file, ha, Except.isOk, Except.toBool] at hok
    | ok a =>
      cases ht : c.transcribe with
      | error e =>
        simp [run_analysis_on_local_file, ha, ht, Except.isOk, Except.toBool] at hok
      | ok t =>
        refine ⟨?_, ?_⟩ <;>
          simp [run_local_file_analysis_and_notify, run_analysis_on_local_file,
            ha, ht, List.getLast?]
  · intro hbad
    cases ha : c.extract_audio with
    | error e =>
      refine ⟨?_, e, ?_⟩ <;>
        simp [run_local_file_analysis_and_notify, run_analysis_on_local_file,
          ha, List.getLast?]
    | ok a =>
      cases ht : c.transcribe with
      | error e =>
        refine ⟨?_, e, ?_⟩ <;>
          simp [run_local_file_analysis_and_notify, run_analysis_on_local_file,
            ha, ht, List.getLast?]
      | ok t =>
        simp [run_analysis_on_local_file, ha, ht, Except.isOk, Except.toBool] at hbad

/-- Witness for the amended C2 at the all-successful collaborator outcomes. -/
theorem single_terminal_event_after_final_write_witness :
    (run_local_file_analysis_and_notify cfg0 "video.mp4").2 = ["complete"]
    ∧ (run_local_file_analysis_and_notify cfg0 "video.mp4").1.writes.getLast?
        = some (.stage .complete) :=
  (single_terminal_event_after_final_write cfg0 "u" "video.mp4").2.1 (by decide)

/-- C3: when the report-generation collaborator fails, the pipeline does not
abort - the job still writes `complete` as its final status and returns
normally, and the persisted report text contains the literal transcript
together with the explicit failure marker. -/
theorem generation_failure_still_completes (c : Collaborators)
    (video_path a t e : String)
    (ha : c.extract_audio = .ok a) (ht : c.transcribe = .ok t)
    (he : c.generate_content = .error e) :
    (run_analysis_on_local_file c video_path).outcome = .ok ()
    ∧ (run_analysis_on_local_file c video_path).writes.getLast?
        = some (.stage .complete)
    ∧ ∃ rep, (run_analysis_on_local_file c video_path).report = some rep
        ∧ t.data <:+: rep.data
        ∧ "# LLM Analysis Failed".data <:+: rep.data := by
  unfold run_analysis_on_local_file
  rw [ha, ht]
  refine ⟨rfl, rfl, generate_report c.generate_content t, rfl, ?_, ?_⟩
  · rw [he]
    unfold generate_report
    exact ⟨("# LLM Analysis Failed\n\nError: " ++ e ++ "\n\n## Transcript\n").data,
      [], by simp [String.data_append]⟩
  · rw [he]
    unfold generate_report
    have hsplit : ("# LLM Analysis Failed\n\nError: " : String)
        = "# LLM Analysis Failed" ++ "\n\nError: " := rfl
    rw [hsplit]
    exact ⟨[], ("\n\nError: " ++ e ++ "\n\n## Transcript\n" ++ t).data,
      by simp [String.data_append]⟩

/-- Witness for C3 with a concretely failing report generator. -/
theorem generation_failure_still_completes_witness :
    (run_analysis_on_local_file cfgGenFail "video.mp4").outcome = .ok ()
    ∧ (run_analysis_on_local_file cfgGenFail "video.mp4").writes.getLast?
        = some (.stage .complete)
    ∧ ∃ rep, (run_analysis_on_local_file cfgGenFail "video.mp4").report = some rep
        ∧ "hello transcript".data <:+: rep.data
        ∧ "# LLM Analysis Failed".data <:+: rep.data :=
  generation_failure_still_completes cfgGenFail "video.mp4" "audio.mp3"
    "hello transcript" "llm unavailable" rfl rfl rfl

/-- Every status write is at or after `downloading` in the pipeline-order
relation. -/
theorem writeLE_downloading (w : StatusWrite) :
    writeLE (.stage .downloading) w := by
  cases w <;> simp [writeLE, Stage.idx]

/-- A failure record may follow any status write. -/
theorem writeLE_failure (w : StatusWrite) (b : Bool) (m : String) :
    writeLE w (.failure b m) := by
  cases w <;> simp [writeLE]

/-- The local-file analysis writes its statuses in pipeline order, failure
records last. -/
theorem local_writes_monotone (c : Collaborators) (p : String) :
    List.Pairwise writeLE (run_analysis_on_local_file c p).writes := by
  cases ha : c.extract_audio with
  | error e =>
    simp [run_analysis_on_local_file, ha, analysis_error, writeLE, Stage.idx,
      List.pairwise_cons]
  | ok a =>
    cases ht : c.transcribe with
    | error e =>
      simp [run_analysis_on_local_file, ha, ht, analysis_error, writeLE, Stage.idx,
        List.pairwise_cons]
    | ok t =>
      simp [run_analysis_on_local_file, ha, ht, writeLE, Stage.idx, List.pairwise_cons]

/-- C4: within one job, the sequence of StatusRecord writes is monotonically
non-decreasing in pipeline order, the only permitted deviation being failure
records; no write regresses to an earlier named stage and no named stage is
ever written after a failure - for both the URL pipeline and the local-file
analysis. -/
theorem status_writes_monotone (c : Collaborators) (url video_path : String) :
    List.Pairwise writeLE (run_analysis_pipeline c url).writes
    ∧ List.Pairwise writeLE (run_analysis_on_local_file c video_path).writes := by
  refine ⟨?_, local_writes_monotone c video_path⟩
  by_cases hg : (strContains url "/video/" || strContains url "/note/") = true
  · cases hd : c.download with
    | error e =>
      simp [run_analysis_pipeline, hg, hd, writeLE, Stage.idx, List.pairwise_cons]
    | ok p =>
      by_cases hp : p = ""
      · simp [run_analysis_pipeline, hg, hd, hp, writeLE, Stage.idx, List.pairwise_cons]
      · cases ho : (run_analysis_on_local_file c p).outcome with
        | ok u =>
          have hw : (run_analysis_pipeline c url).writes
              = .stage .downloading :: (run_analysis_on_local_file c p).writes := by
            simp [run_analysis_pipeline, hg, hd, hp, ho]
          rw [hw, List.pairwise_cons]
          exact ⟨fun w _ => writeLE_downloading w, local_writes_monotone c p⟩
        | error e =>
          have hw : (run_analysis_pipeline c url).writes
              = (.stage .downloading :: (run_analysis_on_local_file c p).writes)
                  ++ [.failure false ("An error occurred: " ++ e)] := by
            simp [run_analysis_pipeline, hg, hd, hp, ho]
          rw [hw]
          refine List.pairwise_append.mpr ⟨?_, by simp, ?_⟩
          · rw [List.pairwise_cons]
            exact ⟨fun w _ => writeLE_downloading w, local_writes_monotone c p⟩
          · intro x hx y hy
            rw [List.mem_singleton] at hy
            rw [hy]
            exact writeLE_failure x false _
  · have hb : (strContains url "/video/" || strContains url "/note/") = false := by
      simpa using hg
    simp [run_analysis_pipeline, hb]

/-- C8 counterexample: the `/analyze` endpoint creates the job directory with
`exist_ok=True`, so creation on an existing directory succeeds (instead of
failing with AlreadyExists), and a fresh creation performs no status-file
write at all (no `Created` initialization). -/
theorem job_creation_exist_ok_cex :
    analyze_video_url_create ["job1"] "job1" = .ok (["job1"], [])
    ∧ analyze_video_url_create [] "job1" = .ok (["job1"], []) := by
  exact ⟨rfl, rfl⟩

/-- C8 (amended): job creation never fails - an existing directory is
accepted silently (`exist_ok=True`) and a missing one is created - and no
StatusRecord is initialized at creation time (the endpoints write no status
file; the first status write happens inside the pipeline). -/
theorem job_creation_never_fails_no_status_init (dirs : List String)
    (job_id : String) :
    ∃ dirs2, analyze_video_url_create dirs job_id = .ok (dirs2, [])
      ∧ job_id ∈ dirs2
      ∧ analyze_video_upload_create dirs job_id
          = .ok (dirs2, [("video.mp4", "upload")]) := by
  by_cases h : job_id ∈ dirs
  · exact ⟨dirs, by simp [analyze_video_url_create, makedirs, h, Except.map], h,
      by simp [analyze_video_upload_create, makedirs, h, Except.map]⟩
  · exact ⟨dirs ++ [job_id], by simp [analyze_video_url_create, makedirs, h, Except.map],
      by simp, by simp [analyze_video_upload_create, makedirs, h, Except.map]⟩

/-- C9: when the transcription stage fails, the job ends in the failure state
(the final status write is the analysis failure record), the analysis raises,
and no stage after transcription runs: the keyframes directory is never
created, no file (keyframe or otherwise) is produced, and neither scene
detection nor report generation is invoked. -/
theorem transcription_failure_halts_before_keyframes (c : Collaborators)
    (video_path a e : String)
    (ha : c.extract_audio = .ok a) (ht : c.transcribe = .error e) :
    (run_analysis_on_local_file c video_path).writes
        = [.stage .extracting_audio, .stage .transcribing, analysis_error e]
    ∧ (run_analysis_on_local_file c video_path).dirs = []
    ∧ "keyframes" ∉ (run_analysis_on_local_file c video_path).dirs
    ∧ (run_analysis_on_local_file c video_path).files = []
    ∧ "detect_scenes" ∉ (run_analysis_on_local_file c video_path).actions
    ∧ (run_analysis_on_local_file c video_path).outcome = .error e := by
  refine ⟨?_, ?_, ?_, ?_, ?_, ?_⟩ <;>
    simp [run_analysis_on_local_file, ha, ht]

/-- Witness for C9 with a concretely failing transcriber. -/
theorem transcription_failure_halts_before_keyframes_witness :
    (run_analysis_on_local_file cfgTransFail "video.mp4").writes
        = [.stage .extracting_audio, .stage .transcribing,
           analysis_error "whisper failed"]
    ∧ (run_analysis_on_local_file cfgTransFail "video.mp4").dirs = []
    ∧ "keyframes" ∉ (run_analysis_on_local_file cfgTransFail "video.mp4").dirs
    ∧ (run_analysis_on_local_file cfgTransFail "video.mp4").files = []
    ∧ "detect_scenes" ∉ (run_analysis_on_local_file cfgTransFail "video.mp4").actions
    ∧ (run_analysis_on_local_file cfgTransFail "video.mp4").outcome
        = .error "whisper failed" :=
  transcription_failure_halts_before_keyframes cfgTransFail "video.mp4"
    "audio.mp3" "whisper failed" rfl rfl

/-- C10: the URL validation decision is exactly substring membership - the
download is attempted if and only if the URL contains "/video/" or "/note/"
as a contiguous substring (no other structure of the URL is examined) - and
the pipeline coroutine returns normally in every case, in particular on
rejection. -/
theorem url_gate_substring_membership (c : Collaborators) (url : String) :
    ("download" ∈ (run_analysis_pipeline c url).actions
      ↔ ("/video/".data <:+: url.data ∨ "/note/".data <:+: url.data))
    ∧ (run_analysis_pipeline c url).outcome = .ok () := by
  refine ⟨?_, pipeline_returns_normally c url⟩
  by_cases hg : (strContains url "/video/" || strContains url "/note/") = true
  · have hr : "download" ∈ (run_analysis_pipeline c url).actions := by
      cases hd : c.download with
      | error e => simp [run_analysis_pipeline, hg, hd]
      | ok p =>
        by_cases hp : p = ""
        · simp [run_analysis_pipeline, hg, hd, hp]
        · cases ho : (run_analysis_on_local_file c p).outcome <;>
            simp [run_analysis_pipeline, hg, hd, hp, ho]
    exact ⟨fun _ => (gate_iff url).mp hg, fun _ => hr⟩
  · have hb : (strContains url "/video/" || strContains url "/note/") = false := by
      simpa using hg
    have hnot : ¬("/video/".data <:+: url.data ∨ "/note/".data <:+: url.data) :=
      fun hc => hg ((gate_iff url).mpr hc)
    simp [run_analysis_pipeline, hb, hnot]

end TKVA
